import Mathlib

/-!
Verification of the lutrainit service-supervisor core.

The definitions below are a shallow embedding of the Go sources:
the per-service run-state machine, the dependency-gated launcher body of
`StartServices`, the two start modes (`Start` for oneshot/forking units,
`StartSimple` for tracked long-running units), the liveness prober
(`checkIfProcessAlive` and its helpers), the stop path (`ExecShutdown`,
`CheckAndStopService`), the control wrappers (`CheckAndStartService`),
and the config-line parser (`parseLine`).

External effects (running a shell command, reading a file, querying the OS
process table, the current clock) are passed in as explicit parameters:
a Go `cmd.Run()` outcome is `Option GoCmdError` (`none` = success,
`exitError` = the command ran and exited non-zero, i.e. Go's
`*exec.ExitError`, `otherError` = any other failure), file contents are
`Option String` (`none` = the file does not exist), and timestamps are
integer parameters.  Mutex acquisition has no sequential content and is
dropped; the concurrent mutation of the shared started-capability set by
sibling launcher goroutines is modelled by indexing the observed set with
the poll number (`startedAt : Nat → String → Bool`).
-/

set_option linter.unusedVariables false

/-- Run states of a service (source constants `NotStarted .. Errored`). -/
inductive RunState
  | NotStarted
  | Starting
  | Started
  | Stopped
  | Errored

deriving instance DecidableEq for RunState

/-- Last actions done to a service (source constants `Unknown .. Forcekill`). -/
inductive LastAction
  | Unknown
  | Start
  | Stop
  | Reload
  | Restart
  | Forcekill

deriving instance DecidableEq for LastAction

/-- The `Service` struct.  Go's `ServiceName`, `ServiceType` and `Command`
are plain string wrappers and are modelled as `String`; the `Type` field is
named `Type'` because `Type` is reserved in Lean.  The defaults are the Go
zero values, so `{}` is Go's `Service{}`. -/
structure Service where
  Name : String := ""
  AutoStart : Bool := false
  Provides : List String := []
  Needs : List String := []
  Description : String := ""
  State : RunState := RunState.NotStarted
  LastActionAt : Int := 0
  LastMessage : String := ""
  LastKnownPID : Int := 0
  Type' : String := ""
  PIDFile : String := ""
  Startup : String := ""
  Shutdown : String := ""
  CheckAlive : String := ""
  Deleted : Bool := false
  LastAction : LastAction := LastAction.Unknown

deriving instance DecidableEq for Service

/-- The Go zero value `Service{}`, the accumulator `ParseConfig` starts from. -/
def emptyService : Service := {}

/-- Error strings of the wait reap-race (source constants lines 17-20). -/
def errWaitNoChild : String := "wait: no child processes"

/-- Second recognized reap-race error string. -/
def errWaitIDNoChild : String := "waitid: no child processes"

/-- `RunState.String()` (lines 39-54); the default branch is unreachable for
the five declared constructors. -/
def RunState.str : RunState → String
  | RunState.NotStarted => "not started"
  | RunState.Starting => "being started"
  | RunState.Started => "already started"
  | RunState.Stopped => "stopped"
  | RunState.Errored => "errored"

/-- Outcome of a Go `cmd.Run()` that returned a non-nil error: either a
`*exec.ExitError` (the command ran and exited non-zero, message like
"exit status 1"), or any other error (launch failure, wait failure).  A
successful run is represented by `Option.none` at the use sites. -/
inductive GoCmdError
  | exitError (msg : String)
  | otherError (msg : String)

deriving instance DecidableEq for GoCmdError

/-- The `Error()` message of a run error. -/
def GoCmdError.message : GoCmdError → String
  | GoCmdError.exitError m => m
  | GoCmdError.otherError m => m

/-- `NeedsSatisfied` (lines 263-272): every tag in `Needs` must be present in
the started-capability map (Go map lookup defaults to `false`).  The mutex
argument of the Go function only serializes concurrent access. -/
def NeedsSatisfied (s : Service) (started : String → Bool) : Bool :=
  s.Needs.all (fun st => started st)

/-- Sleep interval between dependency polls (line 145, `2 * time.Second`). -/
def pollSleepSeconds : Nat := 2

/-- Attempt budget of the dependency wait loop (line 143, `tries < 60`). -/
def maxTries : Nat := 60

/-- The dependency wait loop of `StartServices` (lines 143-147):
`for satisfied, tries := false, 0; satisfied == false && tries < 60; tries++`
with body `satisfied = s.NeedsSatisfied(startedTypes, startedMu); sleep`.
`startedAt i` is the shared started-set as observed by the poll performed at
`tries = i` (sibling goroutines may add tags between polls).  `tries`
increases strictly and the guard caps it at `maxTries`, so `fuel`, kept equal
to `maxTries - tries`, bounds the recursion structurally; the loop guard
itself is the faithful `satisfied == false && tries < 60`.  Returns the final
value of `tries`, i.e. the number of polls performed. -/
def depWaitLoopAux (s : Service) (startedAt : Nat → String → Bool) :
    Nat → Bool → Nat → Nat
  | 0, _, tries => tries
  | fuel + 1, satisfied, tries =>
    if satisfied = false ∧ tries < maxTries then
      depWaitLoopAux s startedAt fuel (NeedsSatisfied s (startedAt tries)) (tries + 1)
    else tries

/-- The wait loop entered with `satisfied, tries := false, 0`. -/
def depWaitLoop (s : Service) (startedAt : Nat → String → Bool) : Nat :=
  depWaitLoopAux s startedAt maxTries false 0

/-- Which start action the launcher body takes after the wait loop
(lines 148-161). -/
inductive Dispatch
  | syncStart
  | asyncSimple
  | unknownType
  | skipped

deriving instance DecidableEq for Dispatch

/-- The dispatch decision of lines 148-159: only a `NotStarted` auto-start
record is started; oneshot/forking synchronously, simple in a fresh
goroutine, any other type gets a warning and no start. -/
def dispatchFor (s : Service) : Dispatch :=
  if s.State = RunState.NotStarted ∧ s.AutoStart = true then
    if s.Type' = "oneshot" ∨ s.Type' = "forking" then Dispatch.syncStart
    else if s.Type' = "simple" then Dispatch.asyncSimple
    else Dispatch.unknownType
  else Dispatch.skipped

/-- The provides-marking block (lines 163-167):
`for _, t := range s.Provides { startedTypes[t] = true }`. -/
def markProvides (s : Service) (started : String → Bool) : String → Bool :=
  s.Provides.foldl (fun acc t => fun x => if x = t then true else acc x) started

/-- `Service.Start` (lines 176-219).  `s` is the Go value receiver (a
snapshot), `reg` the registry record `LoadedServices[s.Name]`, `now` the
timestamp delivered by the `time.Now().UTC().Unix()` calls, `runRes` the
outcome of `cmd.Run()` on the startup command.  Returns the updated registry
record and the error returned to the caller (as its message). -/
def Service.Start (s reg : Service) (now : Int) (runRes : Option GoCmdError) :
    Service × Option String :=
  if s.State ≠ RunState.NotStarted then
    (reg, some ("Service " ++ s.Name ++ " is " ++ s.State.str))
  else
    let reg1 : Service :=
      { reg with
          State := RunState.Starting,
          LastActionAt := now,
          LastAction := LastAction.Start }
    match runRes with
    | none =>
      ({ reg1 with
           State := RunState.Started,
           LastActionAt := now,
           LastAction := LastAction.Start }, none)
    | some e =>
      if e.message = errWaitNoChild ∨ e.message = errWaitIDNoChild then
        ({ reg1 with
             State := RunState.Started,
             LastActionAt := now,
             LastAction := LastAction.Start }, none)
      else
        ({ reg1 with
             State := RunState.Errored,
             LastActionAt := now,
             LastAction := LastAction.Start }, some e.message)

/-- What one launcher goroutine of `StartServices` (lines 139-169) produces:
the number of dependency polls, the dispatch taken, the updated registry
record, and the started-capability set after the provides-marking block. -/
structure LaunchOutcome where
  attempts : Nat
  dispatch : Dispatch
  reg : Service
  startedAfter : String → Bool

/-- One launcher goroutine body from `StartServices` (lines 139-169): run the
bounded dependency wait loop, dispatch the start according to the record's
state/type (`asyncSimple` runs in its own goroutine, so the launcher itself
leaves the registry record alone), then mark every `Provides` tag in the
shared started set.  `startedAt n` is the shared set as observed after the
loop, when the marking block takes the write lock. -/
def goLaunch (s reg : Service) (now : Int) (runRes : Option GoCmdError)
    (startedAt : Nat → String → Bool) : LaunchOutcome :=
  let n := depWaitLoop s startedAt
  let d := dispatchFor s
  let reg' : Service :=
    match d with
    | Dispatch.syncStart => (Service.Start s reg now runRes).1
    | _ => reg
  { attempts := n, dispatch := d, reg := reg',
    startedAfter := markProvides s (startedAt n) }

/-- Outcome of the asynchronous `cmd.Start()` in `StartSimple`: either a
launch error, or a successfully launched process with its PID. -/
inductive LaunchRes
  | failStart (msg : String)
  | okStart (pid : Int)

deriving instance DecidableEq for LaunchRes

/-- `Service.StartSimple` (lines 222-260).  `now` is the timestamp of the
start stamp, `nowExit` the one taken when the process exits cleanly,
`launch` the outcome of `cmd.Start()`, `waitRes` the outcome of `cmd.Wait()`
after a successful launch.  Returns the final registry record.  Note that the
error branch of the wait (lines 246-251) sets `Stopped`, the message and a
zero PID but leaves `LastAction`/`LastActionAt` at the values stamped on
start; only the clean-exit branch (lines 252-259) stamps `Stop`. -/
def Service.StartSimple (s reg : Service) (now nowExit : Int)
    (launch : LaunchRes) (waitRes : Option GoCmdError) : Service :=
  let reg1 : Service :=
    { reg with
        State := RunState.Starting,
        LastActionAt := now,
        LastAction := LastAction.Start,
        LastKnownPID := 0 }
  match launch with
  | LaunchRes.failStart msg =>
    { reg1 with
        State := RunState.Errored,
        LastMessage := msg,
        LastKnownPID := 0 }
  | LaunchRes.okStart pid =>
    let reg2 : Service := { reg1 with State := RunState.Started, LastKnownPID := pid }
    match waitRes with
    | some e =>
      { reg2 with
          State := RunState.Stopped,
          LastMessage := e.message,
          LastKnownPID := 0 }
    | none =>
      { reg2 with
          State := RunState.Stopped,
          LastKnownPID := 0,
          LastActionAt := nowExit,
          LastAction := LastAction.Stop }

/-- `processAliveByCmd` (lines 301-314):
`if err = cmd.Run(); err != nil { return false, err }` — the
`*exec.ExitError` type test that follows it is dead code, because `err` is
nil once that line is reached; so every run error, a non-zero exit status
included, is returned to the caller as an error. -/
def processAliveByCmd (runRes : Option GoCmdError) : Bool × Option GoCmdError :=
  match runRes with
  | some e => (false, some e)
  | none => (true, none)

/-- `ExecShutdown` (lines 316-329): same shape as `processAliveByCmd` — the
run error is returned as-is by the early `return err`, and the
`*exec.ExitError` test below it is dead code, so a non-zero exit of the
shutdown command is surfaced as an error, not swallowed. -/
def ExecShutdown (runRes : Option GoCmdError) : Option GoCmdError :=
  match runRes with
  | some e => some e
  | none => none

/-- Go whitespace predicate on the ASCII characters `bytes.TrimSpace` can
meet in a pid file (space, tab, newline, vertical tab, form feed, carriage
return). -/
def isGoSpace (c : Char) : Bool :=
  c == ' ' || c == '\t' || c == '\n' || c == '\x0b' || c == '\x0c' || c == '\r'

/-- `bytes.TrimSpace`: drop whitespace from both ends. -/
def trimSpace (s : String) : String :=
  String.mk (((s.toList.dropWhile isGoSpace).reverse.dropWhile isGoSpace).reverse)

/-- Digit-string value: at least one character, all ASCII digits. -/
def digitsVal (cs : List Char) : Option Nat :=
  if cs = [] then none
  else if cs.all (fun c => c.isDigit) then
    some (cs.foldl (fun acc c => acc * 10 + (c.toNat - 48)) 0)
  else none

/-- Go `strconv.Atoi` on the inputs this development meets: an optional
sign followed by at least one ASCII digit parses to the signed value,
anything else is an error (`none`).  The 64-bit range check of the original
is not modelled; no claim involves out-of-range numerals. -/
def goAtoi (s : String) : Option Int :=
  match s.toList with
  | [] => none
  | '+' :: rest => (digitsVal rest).map (fun n => (n : Int))
  | '-' :: rest => (digitsVal rest).map (fun n => -(n : Int))
  | cs => (digitsVal cs).map (fun n => (n : Int))

/-- `getProcessPid` (lines 274-286): read the pid file and `strconv.Atoi`
its `bytes.TrimSpace`-trimmed contents; a read failure is returned as-is, a
parse failure as `error parsing pid from: <path>`.  `content` is the file
contents, `none` when the read fails (file missing). -/
def getProcessPid (s : Service) (content : Option String) : Except String Int :=
  match content with
  | none => Except.error ("open " ++ s.PIDFile ++ ": no such file or directory")
  | some d =>
    match goAtoi (trimSpace d) with
    | some pid => Except.ok pid
    | none => Except.error ("error parsing pid from: " ++ s.PIDFile)

/-- `processAliveByPid` (lines 288-299): PID 0 is rejected; otherwise the
`ps.FindProcess` call (external, its error outcome is the parameter
`findProcessErr`) decides — note the Go code ignores the returned process
value and reports alive whenever the query itself does not fail. -/
def processAliveByPid (pid : Int) (findProcessErr : Option String) :
    Bool × Option String :=
  if pid = 0 then (false, some "why are you asking me if PID 0 is alive ?")
  else
    match findProcessErr with
    | some e => (false, some e)
    | none => (true, none)

/-- Outcomes of the external calls the liveness probe makes: the pid-file
contents (`none` = `os.Stat` says the file does not exist), the error
outcome of `ps.FindProcess`, and the run outcome of the check-alive
command. -/
structure ProbeEnv where
  pidFileContent : Option String := none
  findProcessErr : Option String := none
  runCheckAlive : Option GoCmdError := none

deriving instance DecidableEq for ProbeEnv

/-- `checkIfProcessAlive` (lines 331-367): pid-file strategy first, then the
check-alive command, then the registry state for `simple` records, else the
state is indeterminate. -/
def checkIfProcessAlive (s : Service) (env : ProbeEnv) :
    Bool × Int × Option String :=
  if s.PIDFile ≠ "" then
    match env.pidFileContent with
    | none => (false, 0, none)
    | some content =>
      match getProcessPid s (some content) with
      | Except.error e => (false, 0, some e)
      | Except.ok pid =>
        match processAliveByPid pid env.findProcessErr with
        | (running, none) => (running, pid, none)
        | (_, some e) => (false, 0, some e)
  else if s.CheckAlive ≠ "" then
    match processAliveByCmd env.runCheckAlive with
    | (running, none) => (running, 0, none)
    | (_, some e) => (false, 0, some e.message)
  else if s.Type' = "simple" then
    (decide (s.State = RunState.Started), 0, none)
  else
    (true, 0, some "cannot determine process state")

/-- What `CheckAndStartService` did: the returned error, whether a start was
dispatched (synchronously or as a goroutine), and the registry record as the
function itself left it. -/
structure CASResult where
  err : Option String
  launched : Bool
  reg : Service

/-- `CheckAndStartService` (lines 369-389): probe liveness; a probe error or
an alive process short-circuits with an error and no start; otherwise
dispatch the start (`go s.StartSimple()` for simple — the registry effects
belong to that goroutine — and `s.Start()` otherwise, its error being
discarded by the Go code). -/
def CheckAndStartService (s reg : Service) (now : Int) (env : ProbeEnv)
    (runStartup : Option GoCmdError) : CASResult :=
  match checkIfProcessAlive s env with
  | (_, _, some e) => { err := some e, launched := false, reg := reg }
  | (alive, pid, none) =>
    if alive = true ∧ pid ≠ 0 then
      { err := some ("process " ++ s.Name ++ " already running as PID " ++ toString pid),
        launched := false, reg := reg }
    else if alive = true then
      { err := some ("process " ++ s.Name ++ " already running"),
        launched := false, reg := reg }
    else if s.Type' = "simple" then
      { err := none, launched := true, reg := reg }
    else
      { err := none, launched := true, reg := (Service.Start s reg now runStartup).1 }

/-- What `CheckAndStopService` did: the final registry record, the returned
error, and the shutdown commands it handed to `ExecShutdown`. -/
structure StopResult where
  reg : Service
  err : Option String
  executedCmds : List String

/-- `CheckAndStopService` (lines 391-427).  `run` gives the run outcome of
whichever shell command is executed.  The Stop stamp happens up front; a
`simple` record in `Starting`/`Started` runs its `Shutdown` command, falling
back to `pkill <LastKnownPID>` when none is declared; a `simple` record in
any other state is stamped `Stopped` with a not-alive error; any other type
requires a declared `Shutdown` command. -/
def CheckAndStopService (s reg : Service) (now : Int)
    (run : String → Option GoCmdError) : StopResult :=
  let reg0 : Service := { reg with LastActionAt := now, LastAction := LastAction.Stop }
  if s.Type' = "simple" then
    if s.State = RunState.Starting ∨ s.State = RunState.Started then
      let cmdStr := if s.Shutdown ≠ "" then s.Shutdown
                    else "pkill " ++ toString s.LastKnownPID
      match ExecShutdown (run cmdStr) with
      | some e =>
        { reg := { reg0 with State := RunState.Errored },
          err := some e.message, executedCmds := [cmdStr] }
      | none =>
        { reg := { reg0 with State := RunState.Stopped },
          err := none, executedCmds := [cmdStr] }
    else
      { reg := { reg0 with State := RunState.Stopped },
        err := some ("process " ++ s.Name ++ " doesn\x27t seems to be alive ?"),
        executedCmds := [] }
  else
    if s.Shutdown ≠ "" then
      match ExecShutdown (run s.Shutdown) with
      | some e =>
        { reg := { reg0 with State := RunState.Errored },
          err := some e.message, executedCmds := [s.Shutdown] }
      | none =>
        { reg := { reg0 with State := RunState.Stopped },
          err := none, executedCmds := [s.Shutdown] }
    else
      { reg := { reg0 with State := RunState.Errored },
        err := some ("no Shutdown: command defined for " ++ s.Name
                     ++ ", I don\x27t know how to kill it"),
        executedCmds := [] }

/-- Character-list prefix test (the character-level meaning of Go
`strings.HasPrefix`). -/
def listPrefixOf : List Char → List Char → Bool
  | [], _ => true
  | _ :: _, [] => false
  | c :: cs, d :: ds => c == d && listPrefixOf cs ds

/-- Go `strings.HasPrefix line p`. -/
def hasPrefixStr (line p : String) : Bool := listPrefixOf p.toList line.toList

/-- Go `strings.TrimPrefix line p`. -/
def trimPrefix (line p : String) : String :=
  if hasPrefixStr line p then line.drop p.length else line

/-- `parseLine` (config parser, lines 28-78).  Lines still carry their
trailing newline (the Go reader keeps the delimiter); trimming handles it.
Returns the updated accumulator and the error (`ParseConfig` only logs the
error and keeps going). -/
def parseLine (line : String) (s : Service) : Service × Option String :=
  if hasPrefixStr line "Needs:" then
    ({ s with Needs := s.Needs ++ ((trimPrefix line "Needs:").splitOn ",").map trimSpace },
     none)
  else if hasPrefixStr line "Provides:" then
    ({ s with Provides := s.Provides ++ ((trimPrefix line "Provides:").splitOn ",").map trimSpace },
     none)
  else if hasPrefixStr line "Startup:" then
    if s.Startup ≠ "" then (s, some "Startup already set")
    else ({ s with Startup := trimSpace (trimPrefix line "Startup:") }, none)
  else if hasPrefixStr line "Shutdown:" then
    if s.Shutdown ≠ "" then (s, some "Shutdown already set")
    else ({ s with Shutdown := trimSpace (trimPrefix line "Shutdown:") }, none)
  else if hasPrefixStr line "Name:" then
    (if s.Name = "" then { s with Name := trimSpace (trimPrefix line "Name:") } else s,
     none)
  else if hasPrefixStr line "Description:" then
    (if s.Description = "" then { s with Description := trimSpace (trimPrefix line "Description:") } else s,
     none)
  else if hasPrefixStr line "PIDFile:" then
    (if s.PIDFile = "" then { s with PIDFile := trimSpace (trimPrefix line "PIDFile:") } else s,
     none)
  else if hasPrefixStr line "Type:" then
    (if s.Type' = "" then
       (let serviceType := trimSpace (trimPrefix line "Type:")
        if serviceType = "simple" then { s with Type' := "simple" }
        else if serviceType = "forking" then { s with Type' := "forking" }
        else if serviceType = "oneshot" then { s with Type' := "oneshot" }
        else { s with Type' := "simple" })
     else s,
     none)
  else (s, none)

/-- The line-folding skeleton of `ParseConfig` (lines 90-118): feed every
line to `parseLine`, ignoring (logging) per-line errors. -/
def parseLines (lines : List String) (s : Service) : Service :=
  lines.foldl (fun acc l => (parseLine l acc).1) s

/-- The three service types `parseLine` can store. -/
def validTypes : List String := ["simple", "forking", "oneshot"]

/-- Fixture: an auto-start oneshot record with one need, used to exercise
the dependency wait loop at a concrete schedule. -/
def svcC1 : Service :=
  { Name := "dnsd", AutoStart := true, Needs := ["net"],
    Provides := ["dns"], Type' := "oneshot", Startup := "dnsd" }

/-- Fixture schedule: the need shows up from the second poll on. -/
def startedAtC1 : Nat → String → Bool := fun i _ => decide (1 ≤ i)

/-- Fixture: a non-auto-start simple record with two provides, whose start
run fails; used to exercise the provides-marking block. -/
def svcC2 : Service :=
  { Name := "postgres", AutoStart := false, Provides := ["db", "sql"],
    Type' := "simple", Startup := "pg" }

/- ---------------------------------------------------------------- -/
/- Lemmas on the dependency wait loop. -/

theorem depWaitLoopAux_le (s : Service) (startedAt : Nat → String → Bool) :
    ∀ fuel sat tries, depWaitLoopAux s startedAt fuel sat tries ≤ fuel + tries := by
  intro fuel
  induction fuel with
  | zero => intro sat tries; simp [depWaitLoopAux]
  | succ n ih =>
    intro sat tries
    simp only [depWaitLoopAux]
    split
    · exact le_trans (ih _ _) (by omega)
    · omega

theorem depWaitLoopAux_sat (s : Service) (startedAt : Nat → String → Bool)
    (fuel tries : Nat) : depWaitLoopAux s startedAt fuel true tries = tries := by
  cases fuel with
  | zero => rfl
  | succ n => simp [depWaitLoopAux]

theorem depWaitLoopAux_never (s : Service) (startedAt : Nat → String → Bool)
    (h : ∀ i, NeedsSatisfied s (startedAt i) = false) :
    ∀ fuel tries, fuel + tries = maxTries →
      depWaitLoopAux s startedAt fuel false tries = maxTries := by
  intro fuel
  induction fuel with
  | zero => intro tries ht; simpa [depWaitLoopAux] using ht
  | succ n ih =>
    intro tries ht
    have hlt : tries < maxTries := by omega
    rw [depWaitLoopAux, if_pos ⟨rfl, hlt⟩, h tries]
    exact ih (tries + 1) (by omega)

theorem depWaitLoopAux_first (s : Service) (startedAt : Nat → String → Bool)
    (k : Nat) (hk : k < maxTries)
    (hbefore : ∀ i, i < k → NeedsSatisfied s (startedAt i) = false)
    (hAt : NeedsSatisfied s (startedAt k) = true) :
    ∀ fuel tries, fuel + tries = maxTries → tries ≤ k →
      depWaitLoopAux s startedAt fuel false tries = k + 1 := by
  intro fuel
  induction fuel with
  | zero => intro tries ht hle; exfalso; omega
  | succ n ih =>
    intro tries ht hle
    have hlt : tries < maxTries := by omega
    rw [depWaitLoopAux, if_pos ⟨rfl, hlt⟩]
    rcases Nat.lt_or_ge tries k with hcase | hcase
    · rw [hbefore tries hcase]
      exact ih (tries + 1) (by omega) (by omega)
    · have heq : tries = k := le_antisymm hle hcase
      subst heq
      rw [hAt, depWaitLoopAux_sat]

/-- C1: for every auto-start service, the dependency wait loop of
`StartServices` performs at most 60 polls (sleeping `pollSleepSeconds = 2`
between checks), performs exactly 60 when the needs are never satisfied,
exits after poll `k+1` as soon as the `k`-th poll finds every `Needs` tag in
the shared started set, and the launcher body then reaches the start-dispatch
step whose decision does not depend on the wait schedule at all. -/
theorem C1_dependency_wait_bounded (s reg : Service) (now : Int)
    (runRes : Option GoCmdError) (startedAt : Nat → String → Bool) :
    (goLaunch s reg now runRes startedAt).attempts ≤ 60
    ∧ pollSleepSeconds = 2
    ∧ ((∀ i, NeedsSatisfied s (startedAt i) = false) →
        (goLaunch s reg now runRes startedAt).attempts = 60)
    ∧ (∀ k, k < 60 → (∀ i, i < k → NeedsSatisfied s (startedAt i) = false) →
        NeedsSatisfied s (startedAt k) = true →
        (goLaunch s reg now runRes startedAt).attempts = k + 1)
    ∧ (goLaunch s reg now runRes startedAt).dispatch = dispatchFor s := by
  have hatt : (goLaunch s reg now runRes startedAt).attempts
      = depWaitLoopAux s startedAt maxTries false 0 := rfl
  refine ⟨?_, rfl, ?_, ?_, rfl⟩
  · rw [hatt]
    simpa [maxTries] using depWaitLoopAux_le s startedAt maxTries false 0
  · intro h
    rw [hatt, depWaitLoopAux_never s startedAt h maxTries 0 (by simp)]
    rfl
  · intro k hk hb hAt
    rw [hatt, depWaitLoopAux_first s startedAt k (by simpa [maxTries] using hk)
      hb hAt maxTries 0 (by simp) (by omega)]

/-- C1 witness: with the need appearing at the second poll, the loop exits
after exactly two polls. -/
theorem C1_dependency_wait_bounded_witness :
    (goLaunch svcC1 svcC1 0 none startedAtC1).attempts = 2 := by
  have hb : ∀ i, i < 1 → NeedsSatisfied svcC1 (startedAtC1 i) = false := by
    intro i hi
    have hz : i = 0 := by omega
    subst hz
    rfl
  have h := (C1_dependency_wait_bounded svcC1 svcC1 0 none startedAtC1).2.2.2.1 1
    (by omega) hb (by rfl)
  omega

/- ---------------------------------------------------------------- -/
/- Lemmas on the provides-marking block. -/

theorem markProvides_foldl (l : List String) (m : String → Bool) (x : String) :
    l.foldl (fun acc t => fun y => if y = t then true else acc y) m x
      = (m x || decide (x ∈ l)) := by
  induction l generalizing m with
  | nil => simp
  | cons t ts ih =>
    simp only [List.foldl_cons, ih, List.mem_cons]
    by_cases hx : x = t
    · subst hx; simp
    · simp [hx]

theorem markProvides_apply (s : Service) (m : String → Bool) (x : String) :
    markProvides s m x = (m x || decide (x ∈ s.Provides)) :=
  markProvides_foldl s.Provides m x

/-- C2: the launcher body inserts every `Provides` tag into the shared
started set (the single marking pass amounts to one set-union with
`Provides`), for every record — whatever its state, auto-start flag, or the
outcome of the start command — and the resulting set does not depend on the
start outcome at all. -/
theorem C2_provides_marking (s reg : Service) (now : Int)
    (r r' : Option GoCmdError) (startedAt : Nat → String → Bool) (t : String) :
    (goLaunch s reg now r startedAt).startedAfter t
      = (startedAt (goLaunch s reg now r startedAt).attempts t
          || decide (t ∈ s.Provides))
    ∧ (t ∈ s.Provides → (goLaunch s reg now r startedAt).startedAfter t = true)
    ∧ (goLaunch s reg now r startedAt).startedAfter t
      = (goLaunch s reg now r' startedAt).startedAfter t := by
  have h1 : (goLaunch s reg now r startedAt).startedAfter t
      = (startedAt (depWaitLoop s startedAt) t || decide (t ∈ s.Provides)) :=
    markProvides_apply s (startedAt (depWaitLoop s startedAt)) t
  have h2 : (goLaunch s reg now r' startedAt).startedAfter t
      = (startedAt (depWaitLoop s startedAt) t || decide (t ∈ s.Provides)) :=
    markProvides_apply s (startedAt (depWaitLoop s startedAt)) t
  refine ⟨h1, ?_, ?_⟩
  · intro ht
    rw [h1]
    simp [ht]
  · rw [h1, h2]

/-- C2 witness: a non-auto-start record whose start run fails still gets its
first `Provides` tag marked. -/
theorem C2_provides_marking_witness :
    (goLaunch svcC2 svcC2 0 (some (GoCmdError.otherError "fork: no such file"))
      (fun _ _ => false)).startedAfter "db" = true :=
  (C2_provides_marking svcC2 svcC2 0 (some (GoCmdError.otherError "fork: no such file"))
    none (fun _ _ => false) "db").2.1 (by decide)

/-- Fixture: a forking record in pristine state whose startup daemonizes. -/
def svcC3 : Service :=
  { Name := "sshd", AutoStart := true, Type' := "forking", Startup := "sshd" }

/-- Fixture: a record that is already `Started` (guard part of C4). -/
def svcC4a : Service := { Name := "crond", State := RunState.Started }

/-- Fixture: a simple record the registry says is `Started`, with neither a
pid file nor a check-alive command, so the probe reports alive with no
PID (conflict part of C4). -/
def svcC4b : Service := { Name := "ntpd", Type' := "simple", State := RunState.Started }

/-- Fixture: a simple record whose tracked process exits non-zero (C5). -/
def svcC5 : Service :=
  { Name := "webd", AutoStart := true, Type' := "simple", Startup := "webd" }

/-- C3: when a `Start` run (oneshot/forking mode) of a pristine record fails
with exactly one of the two recognized "no child process" wait messages, the
record is marked `Started` and no error is returned; any other run error
marks it `Errored` and is returned. -/
theorem C3_reap_race_success (s reg : Service) (now : Int) (e : GoCmdError)
    (hstate : s.State = RunState.NotStarted) :
    ((e.message = errWaitNoChild ∨ e.message = errWaitIDNoChild) →
      (Service.Start s reg now (some e)).1.State = RunState.Started
      ∧ (Service.Start s reg now (some e)).2 = none)
    ∧ (e.message ≠ errWaitNoChild → e.message ≠ errWaitIDNoChild →
      (Service.Start s reg now (some e)).1.State = RunState.Errored
      ∧ (Service.Start s reg now (some e)).2 = some e.message) := by
  constructor
  · intro hmsg
    simp [Service.Start, hstate, hmsg]
  · intro h1 h2
    simp [Service.Start, hstate, h1, h2]

/-- C3 witness: the `wait: no child processes` run error yields a `Started`
record and no error. -/
theorem C3_reap_race_success_witness :
    (Service.Start svcC3 svcC3 7 (some (GoCmdError.otherError "wait: no child processes"))).1.State
      = RunState.Started
    ∧ (Service.Start svcC3 svcC3 7 (some (GoCmdError.otherError "wait: no child processes"))).2
      = none :=
  (C3_reap_race_success svcC3 svcC3 7 (GoCmdError.otherError "wait: no child processes")
    rfl).1 (Or.inl rfl)

/-- C4: `Start` on a record whose state is not `NotStarted` returns the
state-reporting error and leaves the registry record untouched; and when the
liveness probe reports alive (with no probe error), `CheckAndStartService`
returns the already-running conflict error — naming the PID when it knows
one — without dispatching any start and without touching the record. -/
theorem C4_start_guard_and_conflict (s reg : Service) (now : Int)
    (r : Option GoCmdError) (env : ProbeEnv) (pid : Int) :
    (s.State ≠ RunState.NotStarted →
      (Service.Start s reg now r).1 = reg
      ∧ (Service.Start s reg now r).2
        = some ("Service " ++ s.Name ++ " is " ++ s.State.str))
    ∧ (checkIfProcessAlive s env = (true, pid, none) →
      (CheckAndStartService s reg now env r).launched = false
      ∧ (CheckAndStartService s reg now env r).reg = reg
      ∧ (pid ≠ 0 → (CheckAndStartService s reg now env r).err
          = some ("process " ++ s.Name ++ " already running as PID " ++ toString pid))
      ∧ (pid = 0 → (CheckAndStartService s reg now env r).err
          = some ("process " ++ s.Name ++ " already running"))) := by
  constructor
  · intro hns
    simp [Service.Start, hns]
  · intro hprobe
    by_cases hpid : pid = 0
    · subst hpid
      simp [CheckAndStartService, hprobe]
    · simp [CheckAndStartService, hprobe, hpid]

/-- C4 witness: a `Started` record is left unchanged by `Start`, and a
probe-alive simple record draws the conflict error from
`CheckAndStartService`. -/
theorem C4_start_guard_and_conflict_witness :
    (Service.Start svcC4a svcC4a 3 none).1 = svcC4a
    ∧ (CheckAndStartService svcC4b svcC4b 3 {} none).err
      = some ("process " ++ svcC4b.Name ++ " already running") := by
  constructor
  · exact ((C4_start_guard_and_conflict svcC4a svcC4a 3 none {} 0).1 (by decide)).1
  · exact (((C4_start_guard_and_conflict svcC4b svcC4b 3 none {} 0).2 (by rfl)).2.2.2 rfl)

/-- C5 counterexample: a tracked simple process that exits non-zero is moved
to `Stopped` with the exit message recorded and the PID cleared, but
`LastAction` is NOT stamped `Stop` — it stays at the `Start` stamped when the
process was launched (the error branch of the wait skips the
`LastAction`/`LastActionAt` stamp), refuting the claim that every exit stamps
`LastAction = Stop`. -/
theorem C5_error_exit_keeps_start_stamp :
    (Service.StartSimple svcC5 svcC5 10 20 (LaunchRes.okStart 42)
        (some (GoCmdError.exitError "exit status 1"))).State = RunState.Stopped
    ∧ (Service.StartSimple svcC5 svcC5 10 20 (LaunchRes.okStart 42)
        (some (GoCmdError.exitError "exit status 1"))).LastKnownPID = 0
    ∧ (Service.StartSimple svcC5 svcC5 10 20 (LaunchRes.okStart 42)
        (some (GoCmdError.exitError "exit status 1"))).LastAction ≠ LastAction.Stop := by
  refine ⟨rfl, rfl, ?_⟩
  decide

/-- C5 amended: on process exit the record is always moved to `Stopped` with
`LastKnownPID` cleared; a non-zero exit only records the message (never
`Errored`, which is reserved for launch failure) and leaves the
`Start`-time `LastAction`/`LastActionAt` stamp in place; only a clean exit
stamps `LastAction = Stop` with its timestamp. -/
theorem C5_stopped_on_exit (s reg : Service) (now nowExit : Int) (pid : Int)
    (waitRes : Option GoCmdError) :
    (Service.StartSimple s reg now nowExit (LaunchRes.okStart pid) waitRes).State
      = RunState.Stopped
    ∧ (Service.StartSimple s reg now nowExit (LaunchRes.okStart pid) waitRes).LastKnownPID = 0
    ∧ (∀ e, waitRes = some e →
        (Service.StartSimple s reg now nowExit (LaunchRes.okStart pid) waitRes).LastMessage
          = e.message
        ∧ (Service.StartSimple s reg now nowExit (LaunchRes.okStart pid) waitRes).LastAction
          = LastAction.Start
        ∧ (Service.StartSimple s reg now nowExit (LaunchRes.okStart pid) waitRes).LastActionAt
          = now)
    ∧ (waitRes = none →
        (Service.StartSimple s reg now nowExit (LaunchRes.okStart pid) waitRes).LastAction
          = LastAction.Stop
        ∧ (Service.StartSimple s reg now nowExit (LaunchRes.okStart pid) waitRes).LastActionAt
          = nowExit)
    ∧ (∀ m, (Service.StartSimple s reg now nowExit (LaunchRes.failStart m) waitRes).State
        = RunState.Errored) := by
  cases waitRes with
  | none => simp [Service.StartSimple]
  | some e => simp [Service.StartSimple]

/-- C5 amended witness: a clean exit stamps `Stop` at the exit timestamp. -/
theorem C5_stopped_on_exit_witness :
    (Service.StartSimple svcC5 svcC5 10 20 (LaunchRes.okStart 42) none).LastAction
      = LastAction.Stop
    ∧ (Service.StartSimple svcC5 svcC5 10 20 (LaunchRes.okStart 42) none).LastActionAt = 20 :=
  (C5_stopped_on_exit svcC5 svcC5 10 20 42 none).2.2.2.1 rfl

/-- Fixture: a record probed through its check-alive command (C7). -/
def svcC7 : Service := { Name := "pgd", Type' := "forking", CheckAlive := "pg_isready" }

/-- Fixture: a record probed through its pid file (C8 counterexample). -/
def svcC8 : Service := { Name := "dbd", Type' := "forking", PIDFile := "/run/dbd.pid" }

/-- Fixture: a record probed through its pid file (C8 amended witness). -/
def svcC8w : Service := { Name := "httpd", Type' := "forking", PIDFile := "/run/httpd.pid" }

/-- Fixture: a running simple record with no shutdown command (C9). -/
def svcC9 : Service :=
  { Name := "webd2", Type' := "simple", State := RunState.Started,
    LastKnownPID := 555, Shutdown := "" }

/-- C6: contrary to the claim, `ExecShutdown` does NOT swallow a non-zero
exit of the shutdown command: the early `return err` fires on every run
error, `*exec.ExitError` included (the type test meant to reclassify it is
dead code), so a non-zero exit is surfaced as an error; only a successful
run yields nil.  This evaluates the transcribed code at the failing input. -/
theorem C6_exec_shutdown_returns_exit_error :
    ExecShutdown (some (GoCmdError.exitError "exit status 1"))
      = some (GoCmdError.exitError "exit status 1")
    ∧ ExecShutdown none = none := ⟨rfl, rfl⟩

/-- C7: contrary to the claim, a check-alive command that runs and exits
non-zero does NOT yield `(false, nil)`: `processAliveByCmd` returns the
`*exec.ExitError` through its early `return false, err` (the reclassifying
type test is dead code), so the probe propagates it as an error.  A zero
exit does yield alive with no error, as claimed. -/
theorem C7_check_alive_exit_error_propagates :
    checkIfProcessAlive svcC7 { runCheckAlive := some (GoCmdError.exitError "exit status 1") }
      = (false, 0, some "exit status 1")
    ∧ checkIfProcessAlive svcC7 { runCheckAlive := none } = (true, 0, none)
    ∧ processAliveByCmd (some (GoCmdError.exitError "exit status 1"))
      = (false, some (GoCmdError.exitError "exit status 1")) := ⟨rfl, rfl, rfl⟩

/-- C8 counterexample: pid-file contents `-7` do not parse as a positive
integer PID, yet the probe returns no error: Go's `strconv.Atoi` accepts the
sign, and `processAliveByPid` passes any non-zero PID to the process-table
query (here modelled as succeeding, which `go-ps` does whenever reading the
process table works), so the probe reports alive with PID `-7`. -/
theorem C8_negative_pid_probe_no_error :
    checkIfProcessAlive svcC8 { pidFileContent := some "-7" } = (true, -7, none) := rfl

/-- C8 amended: with `PIDFile` set, a missing file probes to
`(false, 0, nil)`; existing contents are trimmed and parsed by `Atoi` as a
(possibly signed) integer — `"  4242\n"` yields PID `4242` — and only an
integer-parse failure (e.g. `"abc"`) is reported as the parse error; a
parsed non-zero PID is handed to the process-table query. -/
theorem C8_pidfile_probe_parse (s : Service) (env : ProbeEnv)
    (hpf : s.PIDFile ≠ "") :
    (env.pidFileContent = none → checkIfProcessAlive s env = (false, 0, none))
    ∧ (∀ c, env.pidFileContent = some c → goAtoi (trimSpace c) = none →
        checkIfProcessAlive s env
          = (false, 0, some ("error parsing pid from: " ++ s.PIDFile)))
    ∧ (∀ c n, env.pidFileContent = some c → goAtoi (trimSpace c) = some n →
        n ≠ 0 → env.findProcessErr = none →
        checkIfProcessAlive s env = (true, n, none))
    ∧ (∀ c, env.pidFileContent = some c → goAtoi (trimSpace c) = some 0 →
        checkIfProcessAlive s env
          = (false, 0, some "why are you asking me if PID 0 is alive ?"))
    ∧ goAtoi (trimSpace "  4242\n") = some 4242
    ∧ goAtoi (trimSpace "abc") = none := by
  refine ⟨?_, ?_, ?_, ?_, rfl, rfl⟩
  · intro h
    simp [checkIfProcessAlive, hpf, h]
  · intro c hc hparse
    simp [checkIfProcessAlive, hpf, hc, getProcessPid, hparse]
  · intro c n hc hparse hn hfp
    simp [checkIfProcessAlive, hpf, hc, getProcessPid, hparse, processAliveByPid, hn, hfp]
  · intro c hc hparse
    simp [checkIfProcessAlive, hpf, hc, getProcessPid, hparse, processAliveByPid]

/-- C8 amended witness: contents `"  4242\n"` probe to PID 4242, alive, no
error; contents `"0"` parse but draw the PID-0 error from the liveness
guard. -/
theorem C8_pidfile_probe_parse_witness :
    checkIfProcessAlive svcC8w { pidFileContent := some "  4242\n" } = (true, 4242, none)
    ∧ checkIfProcessAlive svcC8w { pidFileContent := some "0" }
      = (false, 0, some "why are you asking me if PID 0 is alive ?") :=
  ⟨(C8_pidfile_probe_parse svcC8w { pidFileContent := some "  4242\n" }
      (by decide)).2.2.1 "  4242\n" 4242 rfl rfl (by decide) rfl,
   (C8_pidfile_probe_parse svcC8w { pidFileContent := some "0" }
      (by decide)).2.2.2.1 "0" rfl rfl⟩

/-- C9: a simple record in `Starting`/`Started` with no `ShutdownCommand`
falls back to executing `pkill <LastKnownPID>`. -/
theorem C9_pkill_fallback (s reg : Service) (now : Int)
    (run : String → Option GoCmdError)
    (htype : s.Type' = "simple")
    (hstate : s.State = RunState.Starting ∨ s.State = RunState.Started)
    (hsd : s.Shutdown = "") :
    (CheckAndStopService s reg now run).executedCmds
      = ["pkill " ++ toString s.LastKnownPID] := by
  cases hrun : ExecShutdown (run ("pkill " ++ toString s.LastKnownPID)) with
  | none => simp [CheckAndStopService, htype, hsd, hstate, hrun]
  | some e => simp [CheckAndStopService, htype, hsd, hstate, hrun]

/-- C9 witness: with `LastKnownPID = 555` the executed fallback command is
exactly `pkill 555`. -/
theorem C9_pkill_fallback_witness :
    (CheckAndStopService svcC9 svcC9 0 (fun _ => none)).executedCmds = ["pkill 555"] := by
  have h := C9_pkill_fallback svcC9 svcC9 0 (fun _ => none) rfl (Or.inr rfl) rfl
  exact h.trans rfl

/-- Fixture: a two-line config with an invalid `Type:` directive. -/
def configC10 : List String := ["Name: foo\n", "Type: banana\n"]

/- ---------------------------------------------------------------- -/
/- Lemmas on the config-line parser. -/

theorem listPrefixOf_head_ne (c d : Char) (cs ds l : List Char)
    (h : listPrefixOf (c :: cs) l = true) (hne : c ≠ d) :
    listPrefixOf (d :: ds) l = false := by
  cases l with
  | nil => simp [listPrefixOf] at h
  | cons e l' =>
    have hce : c = e := by
      simp only [listPrefixOf, Bool.and_eq_true, beq_iff_eq] at h
      exact h.1
    have hde : d ≠ e := fun hd2 => hne (hce.trans hd2.symm)
    simp [listPrefixOf, hde]

theorem hasPrefix_excl (line p q : String) (cp cq : Char)
    (pp qq : List Char)
    (hp : p.toList = cp :: pp) (hq : q.toList = cq :: qq) (hne : cp ≠ cq)
    (h : hasPrefixStr line p = true) : hasPrefixStr line q = false := by
  unfold hasPrefixStr at h ⊢
  rw [hp] at h
  rw [hq]
  exact listPrefixOf_head_ne cp cq pp qq line.toList h hne

theorem parseLine_type_branch (line : String) (s : Service)
    (hpre : hasPrefixStr line "Type:" = true) (hemp : s.Type' = "") :
    (parseLine line s).1
      = (if trimSpace (trimPrefix line "Type:") = "simple" then { s with Type' := "simple" }
         else if trimSpace (trimPrefix line "Type:") = "forking" then { s with Type' := "forking" }
         else if trimSpace (trimPrefix line "Type:") = "oneshot" then { s with Type' := "oneshot" }
         else { s with Type' := "simple" }) := by
  have hN : hasPrefixStr line "Needs:" = false :=
    hasPrefix_excl line "Type:" "Needs:" 'T' 'N' "ype:".toList "eeds:".toList
      rfl rfl (by decide) hpre
  have hP : hasPrefixStr line "Provides:" = false :=
    hasPrefix_excl line "Type:" "Provides:" 'T' 'P' "ype:".toList "rovides:".toList
      rfl rfl (by decide) hpre
  have hSt : hasPrefixStr line "Startup:" = false :=
    hasPrefix_excl line "Type:" "Startup:" 'T' 'S' "ype:".toList "tartup:".toList
      rfl rfl (by decide) hpre
  have hSh : hasPrefixStr line "Shutdown:" = false :=
    hasPrefix_excl line "Type:" "Shutdown:" 'T' 'S' "ype:".toList "hutdown:".toList
      rfl rfl (by decide) hpre
  have hNm : hasPrefixStr line "Name:" = false :=
    hasPrefix_excl line "Type:" "Name:" 'T' 'N' "ype:".toList "ame:".toList
      rfl rfl (by decide) hpre
  have hD : hasPrefixStr line "Description:" = false :=
    hasPrefix_excl line "Type:" "Description:" 'T' 'D' "ype:".toList "escription:".toList
      rfl rfl (by decide) hpre
  have hPf : hasPrefixStr line "PIDFile:" = false :=
    hasPrefix_excl line "Type:" "PIDFile:" 'T' 'P' "ype:".toList "IDFile:".toList
      rfl rfl (by decide) hpre
  simp [parseLine, hN, hP, hSt, hSh, hNm, hD, hPf, hpre, hemp]

theorem parseLine_type_set (line : String) (s : Service)
    (hpre : hasPrefixStr line "Type:" = true) (hemp : s.Type' = "") :
    (parseLine line s).1.Type' ∈ validTypes := by
  rw [parseLine_type_branch line s hpre hemp]
  split_ifs
  · exact List.Mem.head _
  · exact List.Mem.tail _ (List.Mem.head _)
  · exact List.Mem.tail _ (List.Mem.tail _ (List.Mem.head _))
  · exact List.Mem.head _

theorem parseLine_type_eq (line : String) (s : Service) :
    (parseLine line s).1.Type' = s.Type'
    ∨ (s.Type' = "" ∧ (parseLine line s).1.Type' ∈ validTypes) := by
  delta parseLine
  by_cases h1 : hasPrefixStr line "Needs:" = true
  · rw [if_pos h1]; left; rfl
  rw [if_neg h1]
  by_cases h2 : hasPrefixStr line "Provides:" = true
  · rw [if_pos h2]; left; rfl
  rw [if_neg h2]
  by_cases h3 : hasPrefixStr line "Startup:" = true
  · rw [if_pos h3]
    by_cases h3b : s.Startup ≠ ""
    · rw [if_pos h3b]; left; rfl
    · rw [if_neg h3b]; left; rfl
  rw [if_neg h3]
  by_cases h4 : hasPrefixStr line "Shutdown:" = true
  · rw [if_pos h4]
    by_cases h4b : s.Shutdown ≠ ""
    · rw [if_pos h4b]; left; rfl
    · rw [if_neg h4b]; left; rfl
  rw [if_neg h4]
  by_cases h5 : hasPrefixStr line "Name:" = true
  · rw [if_pos h5]
    by_cases h5b : s.Name = ""
    · rw [if_pos h5b]; left; rfl
    · rw [if_neg h5b]; left; rfl
  rw [if_neg h5]
  by_cases h6 : hasPrefixStr line "Description:" = true
  · rw [if_pos h6]
    by_cases h6b : s.Description = ""
    · rw [if_pos h6b]; left; rfl
    · rw [if_neg h6b]; left; rfl
  rw [if_neg h6]
  by_cases h7 : hasPrefixStr line "PIDFile:" = true
  · rw [if_pos h7]
    by_cases h7b : s.PIDFile = ""
    · rw [if_pos h7b]; left; rfl
    · rw [if_neg h7b]; left; rfl
  rw [if_neg h7]
  by_cases h8 : hasPrefixStr line "Type:" = true
  · rw [if_pos h8]
    by_cases h9 : s.Type' = ""
    · rw [if_pos h9]
      right
      refine ⟨h9, ?_⟩
      by_cases ha : trimSpace (trimPrefix line "Type:") = "simple"
      · rw [if_pos ha]; exact List.Mem.head _
      rw [if_neg ha]
      by_cases hb : trimSpace (trimPrefix line "Type:") = "forking"
      · rw [if_pos hb]; exact List.Mem.tail _ (List.Mem.head _)
      rw [if_neg hb]
      by_cases hc : trimSpace (trimPrefix line "Type:") = "oneshot"
      · rw [if_pos hc]; exact List.Mem.tail _ (List.Mem.tail _ (List.Mem.head _))
      rw [if_neg hc]
      exact List.Mem.head _
    · rw [if_neg h9]; left; rfl
  · rw [if_neg h8]; left; rfl

theorem parseLines_cons (l : String) (ls : List String) (s : Service) :
    parseLines (l :: ls) s = parseLines ls (parseLine l s).1 := rfl

theorem parseLines_type_mem (lines : List String) (s : Service)
    (h : s.Type' ∈ validTypes) : (parseLines lines s).Type' ∈ validTypes := by
  induction lines generalizing s with
  | nil => simpa [parseLines] using h
  | cons l ls ih =>
    rw [parseLines_cons]
    rcases parseLine_type_eq l s with heq | ⟨hemp, hmem⟩
    · exact ih _ (by rw [heq]; exact h)
    · exact ih _ hmem

theorem parseLines_type_directive (lines : List String) (s : Service)
    (hemp : s.Type' = "") (h : ∃ l ∈ lines, hasPrefixStr l "Type:" = true) :
    (parseLines lines s).Type' ∈ validTypes := by
  induction lines generalizing s with
  | nil =>
    rcases h with ⟨l, hl, _⟩
    cases hl
  | cons l ls ih =>
    rw [parseLines_cons]
    by_cases hl : hasPrefixStr l "Type:" = true
    · exact parseLines_type_mem ls _ (parseLine_type_set l s hl hemp)
    · rcases h with ⟨l0, hl0, hpl0⟩
      rcases List.mem_cons.mp hl0 with rfl | hmem
      · exact absurd hpl0 hl
      · rcases parseLine_type_eq l s with heq | ⟨_, hmem2⟩
        · exact ih _ (by rw [heq]; exact hemp) ⟨l0, hmem, hpl0⟩
        · exact parseLines_type_mem ls _ hmem2

/-- C10: a `Type:` directive whose trimmed value is not one of
simple/forking/oneshot is coerced to `simple` rather than rejected (on a
record whose type is still unset, as in a first `Type:` directive); hence
any config that contains a `Type:` directive parses, from the zero-value
accumulator, to a service whose type is one of the three valid ones. -/
theorem C10_invalid_type_coerced (line : String) (s : Service) (lines : List String) :
    (hasPrefixStr line "Type:" = true → s.Type' = "" →
      trimSpace (trimPrefix line "Type:") ∉ validTypes →
      (parseLine line s).1.Type' = "simple")
    ∧ ((∃ l ∈ lines, hasPrefixStr l "Type:" = true) →
      (parseLines lines emptyService).Type' ∈ validTypes) := by
  constructor
  · intro hpre hemp hbad
    have hb : trimSpace (trimPrefix line "Type:") ≠ "simple"
        ∧ trimSpace (trimPrefix line "Type:") ≠ "forking"
        ∧ trimSpace (trimPrefix line "Type:") ≠ "oneshot" := by
      simpa [validTypes] using hbad
    rw [parseLine_type_branch line s hpre hemp]
    simp [hb.1, hb.2.1, hb.2.2]
  · intro h
    exact parseLines_type_directive lines emptyService rfl h

/-- C10 witness: the invalid directive `Type: banana` is coerced to
`simple`, and the two-line fixture config parses to a valid type. -/
theorem C10_invalid_type_coerced_witness :
    (parseLine "Type: banana\n" emptyService).1.Type' = "simple"
    ∧ (parseLines configC10 emptyService).Type' ∈ validTypes :=
  ⟨(C10_invalid_type_coerced "Type: banana\n" emptyService []).1 rfl rfl (by decide),
   (C10_invalid_type_coerced "x" emptyService configC10).2
     ⟨"Type: banana\n", by decide, rfl⟩⟩
